import Mathlib

/-!
Verification development for the larry-navigator-v2 diagnostic pipeline.

The Python agents wrap a generative inference call: they build a prompt, call the
model, parse the returned JSON, and fall back to fixed structures when the call or
the parse fails.  The embedding below models each inference-and-parse boundary as
an explicit `Except String R` argument (`.ok r` = the upstream text parsed into a
structured value `r`; `.error e` = the call raised or the text was unparsable with
message `e`).  Parsed upstream dictionaries are modelled as typed records whose
field values are unconstrained (the source code performs no validation on them);
Python dict keys that may be absent are modelled as `Option` fields.  Prompt
construction is irrelevant to every property proved here and is not modelled.
Floats are modelled as rationals.
-/

/-! Classifier agents (src/agents/definition_classifier.py, complexity_assessor.py,
risk_uncertainty.py, wickedness_classifier.py).  Each `classify`-style method
returns the parsed upstream JSON verbatim on success and a fixed default record
on any exception. -/

structure DefinitionResult where
  definition_level : String
  confidence : ℚ
  evidence : List String
  reasoning : String
deriving DecidableEq

structure ComplexityResult where
  complexity_level : String
  confidence : ℚ
  evidence : List String
  reasoning : String
deriving DecidableEq

structure RiskResult where
  position : ℚ
  label : String
  confidence : ℚ
  evidence : List String
  reasoning : String
deriving DecidableEq

structure WickednessResult where
  wickedness_level : String
  confidence : ℚ
  wicked_characteristics : List String
  evidence : List String
  reasoning : String
deriving DecidableEq

def DefinitionClassifier.classify (upstream : Except String DefinitionResult) :
    DefinitionResult :=
  match upstream with
  | .ok r => r
  | .error e =>
      { definition_level := "undefined"
        confidence := 0.3
        evidence := []
        reasoning := "Unable to classify: " ++ e }

def ComplexityAssessor.assess (upstream : Except String ComplexityResult) :
    ComplexityResult :=
  match upstream with
  | .ok r => r
  | .error e =>
      { complexity_level := "complex"
        confidence := 0.3
        evidence := []
        reasoning := "Unable to assess: " ++ e }

def RiskUncertaintyEvaluator.evaluate (upstream : Except String RiskResult) :
    RiskResult :=
  match upstream with
  | .ok r => r
  | .error e =>
      { position := 0.5
        label := "balanced"
        confidence := 0.3
        evidence := []
        reasoning := "Unable to evaluate: " ++ e }

def WicknessClassifier.classify (upstream : Except String WickednessResult) :
    WickednessResult :=
  match upstream with
  | .ok r => r
  | .error e =>
      { wickedness_level := "messy"
        confidence := 0.3
        wicked_characteristics := []
        evidence := []
        reasoning := "Unable to classify: " ++ e }

/-! Schema invariants for the four dimensions, as stated by the spec
(label enums from the classifier docstrings; risk bucket boundaries from the
knowability-spectrum table in src/config/prompts.py). -/

def definitionInvariant (r : DefinitionResult) : Prop :=
  r.definition_level ∈ ["undefined", "ill-defined", "well-defined"] ∧
    0 ≤ r.confidence ∧ r.confidence ≤ 1

def complexityInvariant (r : ComplexityResult) : Prop :=
  r.complexity_level ∈ ["simple", "complicated", "complex", "chaotic"] ∧
    0 ≤ r.confidence ∧ r.confidence ≤ 1

def wickednessInvariant (r : WickednessResult) : Prop :=
  r.wickedness_level ∈ ["tame", "messy", "complex", "wicked"] ∧
    0 ≤ r.confidence ∧ r.confidence ≤ 1

def riskBucketConsistent (pos : ℚ) (label : String) : Prop :=
  (label = "risk" ∧ 0 ≤ pos ∧ pos ≤ 0.2) ∨
  (label = "mixed-risk" ∧ 0.2 ≤ pos ∧ pos ≤ 0.4) ∨
  (label = "balanced" ∧ 0.4 ≤ pos ∧ pos ≤ 0.6) ∨
  (label = "mixed-uncertainty" ∧ 0.6 ≤ pos ∧ pos ≤ 0.8) ∨
  (label = "uncertainty" ∧ 0.8 ≤ pos ∧ pos ≤ 1)

def riskInvariant (r : RiskResult) : Prop :=
  0 ≤ r.position ∧ r.position ≤ 1 ∧
    r.label ∈ ["risk", "mixed-risk", "balanced", "mixed-uncertainty", "uncertainty"] ∧
    riskBucketConsistent r.position r.label ∧
    0 ≤ r.confidence ∧ r.confidence ≤ 1

instance (r : DefinitionResult) : Decidable (definitionInvariant r) := by
  unfold definitionInvariant; infer_instance

instance (r : ComplexityResult) : Decidable (complexityInvariant r) := by
  unfold complexityInvariant; infer_instance

instance (r : WickednessResult) : Decidable (wickednessInvariant r) := by
  unfold wickednessInvariant; infer_instance

instance (pos : ℚ) (label : String) : Decidable (riskBucketConsistent pos label) := by
  unfold riskBucketConsistent; infer_instance

instance (r : RiskResult) : Decidable (riskInvariant r) := by
  unfold riskInvariant; infer_instance

/-- C8: for each of the four classifier agents, any failure to obtain or parse a
structured result yields the fixed safe-default result for its dimension —
definition "undefined", complexity "complex", risk position 0.5 with label
"balanced", wickedness "messy" — each with confidence 0.3, empty evidence, and
the error message folded into the reasoning field. -/
theorem classifier_failure_safe_defaults (e : String) :
    DefinitionClassifier.classify (.error e) =
      { definition_level := "undefined", confidence := 0.3, evidence := [],
        reasoning := "Unable to classify: " ++ e } ∧
    ComplexityAssessor.assess (.error e) =
      { complexity_level := "complex", confidence := 0.3, evidence := [],
        reasoning := "Unable to assess: " ++ e } ∧
    RiskUncertaintyEvaluator.evaluate (.error e) =
      { position := 0.5, label := "balanced", confidence := 0.3, evidence := [],
        reasoning := "Unable to evaluate: " ++ e } ∧
    WicknessClassifier.classify (.error e) =
      { wickedness_level := "messy", confidence := 0.3, wicked_characteristics := [],
        evidence := [], reasoning := "Unable to classify: " ++ e } :=
  ⟨rfl, rfl, rfl, rfl⟩

/-- C4 counterexample: a parseable upstream response whose label is outside the
dimension enum and whose confidence is outside [0,1] is returned verbatim by
DefinitionClassifier.classify, so the returned result violates the schema
invariant. -/
theorem classifier_schema_counterexample :
    DefinitionClassifier.classify
        (.ok { definition_level := "banana", confidence := 5, evidence := [],
               reasoning := "looks plausible" }) =
      { definition_level := "banana", confidence := 5, evidence := [],
        reasoning := "looks plausible" } ∧
    ¬ definitionInvariant
        (DefinitionClassifier.classify
          (.ok { definition_level := "banana", confidence := 5, evidence := [],
                 reasoning := "looks plausible" })) := by
  constructor
  · rfl
  · decide

/-- C4 amended: on every failing or unparseable upstream response each
fallback result of each classifier satisfies the schema invariant of its dimension
(including bucket-consistency of the risk fallback position 0.5 / label
"balanced"); a parseable upstream response is returned verbatim without
validation, so on the success path the invariant holds exactly when the upstream
value itself satisfies it. -/
theorem classifier_schema_invariants (e : String) :
    definitionInvariant (DefinitionClassifier.classify (.error e)) ∧
    complexityInvariant (ComplexityAssessor.assess (.error e)) ∧
    riskInvariant (RiskUncertaintyEvaluator.evaluate (.error e)) ∧
    wickednessInvariant (WicknessClassifier.classify (.error e)) ∧
    (∀ r : DefinitionResult, DefinitionClassifier.classify (.ok r) = r) ∧
    (∀ r : RiskResult, RiskUncertaintyEvaluator.evaluate (.ok r) = r) := by
  refine ⟨?_, ?_, ?_, ?_, fun r => rfl, fun r => rfl⟩
  · simp only [DefinitionClassifier.classify, definitionInvariant]
    exact ⟨by simp, by norm_num, by norm_num⟩
  · simp only [ComplexityAssessor.assess, complexityInvariant]
    exact ⟨by simp, by norm_num, by norm_num⟩
  · simp only [RiskUncertaintyEvaluator.evaluate, riskInvariant, riskBucketConsistent]
    norm_num
  · simp only [WicknessClassifier.classify, wickednessInvariant]
    exact ⟨by simp, by norm_num, by norm_num⟩

/-! Framework catalog (src/config/frameworks.py).  The catalog is static data:
sixteen `FrameworkTemplate` entries split across two phases, combined into
`ALL_FRAMEWORKS`.  `output_structure` is an ordered mapping, modelled as an
association list. -/

structure FrameworkTemplate where
  title : String
  definition : String
  framework_type : String
  complexity_fit : List String
  phase : String
  required_concepts : List String
  when_to_use : String
  key_questions : List String
  output_structure : List (String × String)
deriving DecidableEq

def jobs_to_be_done : FrameworkTemplate :=
  { title := "Jobs-To-Be-Done (JTBD)"
    definition := "Focus on the underlying job customers are trying to accomplish, not the product they\x27re using."
    framework_type := "ill-defined"
    complexity_fit := ["complicated", "complex"]
    phase := "discovery"
    required_concepts := ["functional job", "emotional job", "social job", "job executor", "circumstance"]
    when_to_use := "When you need to understand WHY customers behave the way they do, not just WHAT they do."
    key_questions :=
      [ "What job is the customer trying to get done?"
      , "What are the functional, emotional, and social dimensions?"
      , "What circumstances trigger the need for this job?"
      , "What alternatives do they currently use?"
      , "What pain points exist in current solutions?" ]
    output_structure :=
      [ ("job_statement", "When [situation], I want to [motivation], so I can [outcome]")
      , ("job_dimensions", "Functional / Emotional / Social analysis")
      , ("pain_points", "Current solution gaps")
      , ("opportunities", "Unmet needs to address") ] }

def reverse_salience : FrameworkTemplate :=
  { title := "Reverse Salience"
    definition := "Identify what\x27s NOT being said, what\x27s missing, what\x27s being avoided in the problem space."
    framework_type := "undefined"
    complexity_fit := ["complex", "chaotic"]
    phase := "discovery"
    required_concepts := ["absence", "blind spots", "assumptions", "taboos", "unspoken constraints"]
    when_to_use := "When the problem feels stuck or when obvious solutions have failed."
    key_questions :=
      [ "What\x27s NOT being discussed in this space?"
      , "What assumptions are everyone making?"
      , "What questions are considered \x27off limits\x27?"
      , "What would a naive outsider ask?"
      , "What\x27s the elephant in the room?" ]
    output_structure :=
      [ ("hidden_assumptions", "Assumptions being made")
      , ("blind_spots", "What\x27s being overlooked")
      , ("taboo_questions", "Questions not being asked")
      , ("reframe", "New perspective on the problem") ] }

def trending_to_absurd : FrameworkTemplate :=
  { title := "Trending to the Absurd"
    definition := "Extrapolate current trends to extreme conclusions to reveal hidden implications."
    framework_type := "undefined"
    complexity_fit := ["complex", "chaotic"]
    phase := "discovery"
    required_concepts := ["trend", "extrapolation", "limiting factor", "inflection point", "absurdity"]
    when_to_use := "When exploring long-term implications or challenging conventional wisdom."
    key_questions :=
      [ "If this trend continues, what happens in 10 years?"
      , "What would stop this trend?"
      , "What\x27s the logical extreme?"
      , "At what point does it become absurd?"
      , "What does the absurdity reveal?" ]
    output_structure :=
      [ ("current_trend", "Observable pattern")
      , ("extrapolation", "Where it leads")
      , ("absurd_endpoint", "Logical extreme")
      , ("insight", "What this reveals") ] }

def scenario_planning : FrameworkTemplate :=
  { title := "Scenario Planning"
    definition := "Develop multiple plausible futures to prepare for uncertainty."
    framework_type := "undefined"
    complexity_fit := ["complex", "chaotic"]
    phase := "discovery"
    required_concepts := ["drivers of change", "critical uncertainties", "scenario matrix", "implications", "signposts"]
    when_to_use := "When facing high uncertainty and need to prepare for multiple futures."
    key_questions :=
      [ "What are the key drivers of change?"
      , "What are the critical uncertainties?"
      , "What are 2-4 plausible future scenarios?"
      , "What are the implications of each?"
      , "What would signal each scenario is unfolding?" ]
    output_structure :=
      [ ("drivers", "Forces shaping the future")
      , ("uncertainties", "Key unknowns")
      , ("scenarios", "2-4 distinct futures")
      , ("implications", "What each means for you") ] }

def process_mapping : FrameworkTemplate :=
  { title := "Process Mapping"
    definition := "Visualize the current state of a process to identify pain points and opportunities."
    framework_type := "ill-defined"
    complexity_fit := ["simple", "complicated"]
    phase := "discovery"
    required_concepts := ["steps", "actors", "inputs/outputs", "pain points", "decision points"]
    when_to_use := "When the problem involves an existing process with friction or inefficiency."
    key_questions :=
      [ "What are all the steps in the current process?"
      , "Who is involved at each step?"
      , "Where does friction occur?"
      , "What causes delays or errors?"
      , "Which steps add value vs. waste?" ]
    output_structure :=
      [ ("process_steps", "Sequential flow")
      , ("actors", "Who does what")
      , ("pain_points", "Where friction occurs")
      , ("waste", "Non-value-adding activities") ] }

def six_thinking_hats : FrameworkTemplate :=
  { title := "Six Thinking Hats"
    definition := "Structured parallel thinking using six distinct perspectives."
    framework_type := "ill-defined"
    complexity_fit := ["complicated", "complex"]
    phase := "discovery"
    required_concepts := ["white (facts)", "red (emotions)", "black (caution)", "yellow (optimism)", "green (creativity)", "blue (process)"]
    when_to_use := "When group thinking is stuck or dominated by one perspective."
    key_questions :=
      [ "White: What are the facts and data?"
      , "Red: What\x27s your gut feeling?"
      , "Black: What could go wrong?"
      , "Yellow: What are the benefits?"
      , "Green: What alternatives exist?"
      , "Blue: What\x27s the process forward?" ]
    output_structure :=
      [ ("facts", "Objective information")
      , ("feelings", "Emotional reactions")
      , ("risks", "Potential problems")
      , ("benefits", "Potential gains")
      , ("alternatives", "Creative options")
      , ("next_steps", "Process forward") ] }

def root_cause_analysis : FrameworkTemplate :=
  { title := "Root Cause Analysis (5 Whys)"
    definition := "Drill down through symptoms to find underlying causes."
    framework_type := "ill-defined"
    complexity_fit := ["simple", "complicated"]
    phase := "discovery"
    required_concepts := ["symptom", "cause chain", "root cause", "systemic factors"]
    when_to_use := "When facing a recurring problem or when symptoms are clear but causes are not."
    key_questions :=
      [ "What is the observable problem?"
      , "Why does that happen? (x5)"
      , "Is this the root cause or another symptom?"
      , "What systemic factors enable this?"
      , "How do we know we\x27ve found the root?" ]
    output_structure :=
      [ ("symptom", "Observable problem")
      , ("cause_chain", "5 Why analysis")
      , ("root_cause", "Fundamental cause")
      , ("systemic_factors", "Enabling conditions") ] }

def macro_trends : FrameworkTemplate :=
  { title := "Macro Trends Analysis"
    definition := "Analyze large-scale forces shaping your problem space (PESTLE)."
    framework_type := "undefined"
    complexity_fit := ["complex", "chaotic"]
    phase := "discovery"
    required_concepts := ["political", "economic", "social", "technological", "legal", "environmental"]
    when_to_use := "When you need to understand the external forces affecting your problem."
    key_questions :=
      [ "What political factors are relevant?"
      , "What economic forces are at play?"
      , "What social/cultural shifts matter?"
      , "What technological changes are coming?"
      , "What legal/regulatory factors apply?"
      , "What environmental factors are relevant?" ]
    output_structure :=
      [ ("political", "Government, policy factors")
      , ("economic", "Market, financial forces")
      , ("social", "Cultural, demographic shifts")
      , ("technological", "Tech trends, disruptions")
      , ("legal", "Regulatory environment")
      , ("environmental", "Sustainability factors") ] }

def systems_thinking : FrameworkTemplate :=
  { title := "Systems Thinking"
    definition := "Understand the problem as part of an interconnected system with feedback loops."
    framework_type := "wicked"
    complexity_fit := ["complex", "chaotic"]
    phase := "discovery"
    required_concepts := ["system boundaries", "feedback loops", "stocks and flows", "leverage points", "emergence"]
    when_to_use := "When the problem involves multiple interdependent parts or unintended consequences."
    key_questions :=
      [ "What are the boundaries of the system?"
      , "What are the key elements and their relationships?"
      , "Where are the feedback loops (reinforcing/balancing)?"
      , "What are the leverage points?"
      , "What emergent behaviors exist?" ]
    output_structure :=
      [ ("boundaries", "System scope")
      , ("elements", "Key components")
      , ("relationships", "Connections and dependencies")
      , ("feedback_loops", "Reinforcing and balancing")
      , ("leverage_points", "Where intervention is effective") ] }

def value_migration : FrameworkTemplate :=
  { title := "Value Migration"
    definition := "Track where value is moving in your industry to find opportunities."
    framework_type := "ill-defined"
    complexity_fit := ["complicated", "complex"]
    phase := "discovery"
    required_concepts := ["value chain", "profit pools", "migration patterns", "value capture", "disruption"]
    when_to_use := "When exploring where competitive advantage is shifting in an industry."
    key_questions :=
      [ "Where is value being created today?"
      , "Where is value migrating to?"
      , "What\x27s driving the migration?"
      , "Who is capturing the new value?"
      , "Where are the profit pools drying up?" ]
    output_structure :=
      [ ("current_value", "Where value exists today")
      , ("migration_direction", "Where it\x27s moving")
      , ("drivers", "Forces causing migration")
      , ("opportunities", "Where to position") ] }

def pws_triple_validation : FrameworkTemplate :=
  { title := "PWS Triple Validation Compass"
    definition := "Validate that a problem is REAL, WINNABLE, and WORTH IT."
    framework_type := "well-defined"
    complexity_fit := ["complicated", "complex"]
    phase := "solution"
    required_concepts := ["real (pain exists)", "winnable (solution feasible)", "worth it (value > cost)"]
    when_to_use := "When you have a problem hypothesis and need to validate it\x27s worth solving."
    key_questions :=
      [ "REAL: Do people actually experience this pain? Evidence?"
      , "WINNABLE: Can a solution be built within constraints?"
      , "WORTH IT: Does the value justify the effort?"
      , "What\x27s the evidence for each?"
      , "What gaps remain?" ]
    output_structure :=
      [ ("real_score", "Evidence of pain (1-10)")
      , ("winnable_score", "Feasibility assessment (1-10)")
      , ("worth_it_score", "Value vs cost (1-10)")
      , ("evidence", "Supporting data")
      , ("gaps", "What needs validation") ] }

def heart_framework : FrameworkTemplate :=
  { title := "HEART Framework (Pitching)"
    definition := "Structure a compelling pitch: Hook, Evidence, Action, Reason, Timeline."
    framework_type := "well-defined"
    complexity_fit := ["simple", "complicated"]
    phase := "solution"
    required_concepts := ["hook", "evidence", "action", "reason", "timeline"]
    when_to_use := "When you need to pitch or communicate your solution compellingly."
    key_questions :=
      [ "What\x27s the hook that grabs attention?"
      , "What evidence supports your claim?"
      , "What action do you want them to take?"
      , "Why should they care (what\x27s in it for them)?"
      , "What\x27s the timeline/urgency?" ]
    output_structure :=
      [ ("hook", "Attention grabber")
      , ("evidence", "Supporting proof")
      , ("action", "Clear ask")
      , ("reason", "Why it matters to them")
      , ("timeline", "Urgency/next steps") ] }

def mullins_model : FrameworkTemplate :=
  { title := "Mullins 7 Domains Model"
    definition := "Assess opportunity attractiveness across market, industry, and team dimensions."
    framework_type := "well-defined"
    complexity_fit := ["complicated"]
    phase := "solution"
    required_concepts := ["market attractiveness", "industry attractiveness", "team capability", "macro/micro"]
    when_to_use := "When evaluating whether to pursue a business opportunity."
    key_questions :=
      [ "Is the market large and growing?"
      , "Is the industry structurally attractive?"
      , "Do you have sustainable advantage?"
      , "Can you serve the target segment?"
      , "Does the team have the right capabilities?" ]
    output_structure :=
      [ ("market_macro", "Overall market size and growth")
      , ("market_micro", "Target segment attractiveness")
      , ("industry_macro", "Industry structure (Porter\x27s)")
      , ("industry_micro", "Competitive advantage")
      , ("team_fit", "Team capability match") ] }

def business_model_canvas : FrameworkTemplate :=
  { title := "Business Model Canvas"
    definition := "Map the 9 building blocks of a business model."
    framework_type := "well-defined"
    complexity_fit := ["complicated"]
    phase := "solution"
    required_concepts := ["value proposition", "customer segments", "channels", "relationships", "revenue", "resources", "activities", "partners", "costs"]
    when_to_use := "When designing or evaluating a business model."
    key_questions :=
      [ "What value do you deliver?"
      , "Who are your customers?"
      , "How do you reach them?"
      , "What relationships do you build?"
      , "How do you make money?"
      , "What resources do you need?"
      , "What activities are key?"
      , "Who are your partners?"
      , "What are your costs?" ]
    output_structure :=
      [ ("value_proposition", "What you offer")
      , ("customer_segments", "Who you serve")
      , ("channels", "How you reach them")
      , ("relationships", "How you engage")
      , ("revenue_streams", "How you earn")
      , ("key_resources", "What you need")
      , ("key_activities", "What you do")
      , ("key_partners", "Who helps you")
      , ("cost_structure", "What it costs") ] }

def lean_startup_mvp : FrameworkTemplate :=
  { title := "Lean Startup / MVP"
    definition := "Build-Measure-Learn cycle with minimum viable product."
    framework_type := "well-defined"
    complexity_fit := ["complex"]
    phase := "solution"
    required_concepts := ["hypothesis", "MVP", "metrics", "pivot/persevere", "validated learning"]
    when_to_use := "When you need to test assumptions quickly with minimal investment."
    key_questions :=
      [ "What\x27s the riskiest assumption?"
      , "What\x27s the smallest test to validate it?"
      , "What metric will indicate success?"
      , "What will you learn?"
      , "Will you pivot or persevere?" ]
    output_structure :=
      [ ("hypothesis", "Testable assumption")
      , ("mvp", "Minimum viable product/test")
      , ("success_metric", "How to measure")
      , ("learning", "What you discovered")
      , ("decision", "Pivot or persevere") ] }

def stakeholder_mapping : FrameworkTemplate :=
  { title := "Stakeholder Mapping"
    definition := "Identify and analyze all parties affected by or affecting the problem/solution."
    framework_type := "wicked"
    complexity_fit := ["complicated", "complex"]
    phase := "solution"
    required_concepts := ["stakeholders", "power", "interest", "influence", "relationships"]
    when_to_use := "When multiple parties are involved with different interests."
    key_questions :=
      [ "Who are all the stakeholders?"
      , "What are their interests?"
      , "What power do they have?"
      , "How do they influence each other?"
      , "Who are allies vs. blockers?" ]
    output_structure :=
      [ ("stakeholders", "All parties identified")
      , ("power_interest", "2x2 mapping")
      , ("interests", "What each wants")
      , ("strategy", "How to engage each") ] }

def PHASE_1_FRAMEWORKS : List (String × FrameworkTemplate) :=
  [ ("jobs_to_be_done", jobs_to_be_done)
  , ("reverse_salience", reverse_salience)
  , ("trending_to_absurd", trending_to_absurd)
  , ("scenario_planning", scenario_planning)
  , ("process_mapping", process_mapping)
  , ("six_thinking_hats", six_thinking_hats)
  , ("root_cause_analysis", root_cause_analysis)
  , ("macro_trends", macro_trends)
  , ("systems_thinking", systems_thinking)
  , ("value_migration", value_migration) ]

def PHASE_2_FRAMEWORKS : List (String × FrameworkTemplate) :=
  [ ("pws_triple_validation", pws_triple_validation)
  , ("heart_framework", heart_framework)
  , ("mullins_model", mullins_model)
  , ("business_model_canvas", business_model_canvas)
  , ("lean_startup_mvp", lean_startup_mvp)
  , ("stakeholder_mapping", stakeholder_mapping) ]

def ALL_FRAMEWORKS : List (String × FrameworkTemplate) :=
  PHASE_1_FRAMEWORKS ++ PHASE_2_FRAMEWORKS

def get_framework (framework_id : String) : Option FrameworkTemplate :=
  ALL_FRAMEWORKS.lookup framework_id

/-! Framework Recommender (src/agents/framework_recommender.py).
`recommend` delegates to the LLM and, on any exception, to
`_fallback_recommendations`.  The fallback reads only `detected_signals` from
the pyramid analysis (the `problem_stage` variable it extracts is never used),
so it is embedded as a function of the detected-signal list and the error
string.  `full_data` models the enrichment dict attached when the framework id
resolves in the catalog (the Python dict holds a field-subset of the template). -/

structure FwRecommendation where
  framework_id : String
  title : String
  relevance_score : ℚ
  rationale : String
  would_address : List String
  phase : String
  signals_matched : List String
  full_data : Option FrameworkTemplate
deriving DecidableEq

structure RecommendationResult where
  recommended_frameworks : List FwRecommendation
  selection_reasoning : String
  primary_recommendation : String
  complementary_pairs : List String
  error : Option String
deriving DecidableEq

def signal_frameworks : List (String × String × String × String) :=
  [ ("causal_ambiguity", "root_cause_analysis", "Root Cause Analysis", "Identify root causes")
  , ("system_bottleneck", "reverse_salience", "Reverse Salience", "Find system bottlenecks")
  , ("stakeholder_conflict", "stakeholder_mapping", "Stakeholder Mapping", "Map stakeholder interests")
  , ("trend_pressure", "scenario_planning", "Scenario Planning", "Explore future scenarios")
  , ("user_behavior", "jobs_to_be_done", "Jobs-To-Be-Done", "Understand user needs")
  , ("business_model", "business_model_canvas", "Business Model Canvas", "Design business model")
  , ("validation_gap", "lean_startup_mvp", "Lean Startup / MVP", "Validate assumptions")
  , ("execution_focus", "process_mapping", "Process Mapping", "Map execution steps")
  , ("ideation_needed", "six_thinking_hats", "Six Thinking Hats", "Generate diverse ideas")
  , ("narrative_focus", "heart_framework", "HEART Framework", "Craft compelling narrative")
  , ("strategic_choice", "decision_trees", "Decision Trees", "Structure key decisions")
  , ("uncertainty_high", "cynefin", "Cynefin Framework", "Navigate uncertainty")
  , ("time_pressure", "pws_triple_validation", "PWS Triple Validation", "Quick validation") ]

def mkSignalRec (fid title rationale signal : String) : FwRecommendation :=
  { framework_id := fid
    title := title
    relevance_score := 0.80
    rationale := "Signal \x27" ++ signal ++ "\x27 detected - " ++ rationale
    would_address := [rationale]
    phase := "discovery"
    signals_matched := [signal]
    full_data := none }

def buildSignalRecs : List String → List String → List FwRecommendation
  | [], _ => []
  | s :: rest, used =>
    match signal_frameworks.lookup s with
    | some (fid, title, rationale) =>
        if fid ∈ used then buildSignalRecs rest used
        else mkSignalRec fid title rationale s :: buildSignalRecs rest (fid :: used)
    | none => buildSignalRecs rest used

def diverse_defaults : List (String × String × String) :=
  [ ("root_cause_analysis", "Root Cause Analysis", "Understand underlying causes")
  , ("scenario_planning", "Scenario Planning", "Explore possible futures")
  , ("stakeholder_mapping", "Stakeholder Mapping", "Map key stakeholders")
  , ("six_thinking_hats", "Six Thinking Hats", "Multiple perspectives") ]

def mkDefaultRec (p : String × String × String) : FwRecommendation :=
  { framework_id := p.1
    title := p.2.1
    relevance_score := 0.70
    rationale := "Diverse exploration - " ++ p.2.2
    would_address := [p.2.2]
    phase := "discovery"
    signals_matched := []
    full_data := none }

def enrichFallback (r : FwRecommendation) : FwRecommendation :=
  match ALL_FRAMEWORKS.lookup r.framework_id with
  | some fw => { r with full_data := some fw }
  | none => r

def fallbackRecsList (detected_signals : List String) : List FwRecommendation :=
  let fromSignals := buildSignalRecs (detected_signals.take 4) []
  let base :=
    if fromSignals.isEmpty then (diverse_defaults.take 3).map mkDefaultRec
    else fromSignals
  base.map enrichFallback

def fallback_recommendations (detected_signals : List String) (error : String) :
    RecommendationResult :=
  let recommendations := fallbackRecsList detected_signals
  { recommended_frameworks := recommendations
    selection_reasoning := "Signal-driven fallback: " ++
      (if detected_signals.isEmpty then "diverse exploration"
       else String.intercalate ", " detected_signals)
    primary_recommendation :=
      match recommendations with
      | [] => "root_cause_analysis"
      | r :: _ => r.framework_id
    complementary_pairs := []
    error := some error }

/-! Helper lemmas for the fallback recommendation list. -/

theorem lookup_mem_values {α : Type} {l : List (String × α)} {k : String} {v : α}
    (h : l.lookup k = some v) : v ∈ l.map Prod.snd := by
  induction l with
  | nil => simp [List.lookup] at h
  | cons p ps ih =>
      rw [List.lookup] at h
      by_cases hk : k == p.1
      · simp [hk] at h; simp [← h]
      · simp only [hk, Bool.false_eq_true, if_false] at h
        simp [ih h]

theorem enrichFallback_id (r : FwRecommendation) :
    (enrichFallback r).framework_id = r.framework_id := by
  unfold enrichFallback
  cases ALL_FRAMEWORKS.lookup r.framework_id <;> rfl

def catalogOk (fid : String) : Bool :=
  (ALL_FRAMEWORKS.lookup fid).isSome || fid == "cynefin" || fid == "decision_trees"

theorem buildSignalRecs_catalogOk (ss used : List String) :
    (buildSignalRecs ss used).all (fun r => catalogOk r.framework_id) = true := by
  induction ss generalizing used with
  | nil => rfl
  | cons s rest ih =>
      rw [buildSignalRecs]
      cases hl : signal_frameworks.lookup s with
      | none => exact ih used
      | some v =>
          obtain ⟨fid, title, rationale⟩ := v
          by_cases hu : fid ∈ used
          · simp only [if_pos hu]; exact ih used
          · simp only [if_neg hu, List.all_cons, Bool.and_eq_true]
            refine And.intro ?_ (ih (fid :: used))
            have hv : (fid, title, rationale) ∈ signal_frameworks.map Prod.snd :=
              lookup_mem_values hl
            have : ∀ v ∈ signal_frameworks.map Prod.snd, catalogOk v.1 = true := by decide
            exact this _ hv

theorem buildSignalRecs_nodup (ss used : List String) :
    ((buildSignalRecs ss used).map FwRecommendation.framework_id).Nodup ∧
    ∀ f ∈ (buildSignalRecs ss used).map FwRecommendation.framework_id, f ∉ used := by
  induction ss generalizing used with
  | nil => exact ⟨by simp [buildSignalRecs], by simp [buildSignalRecs]⟩
  | cons s rest ih =>
      rw [buildSignalRecs]
      cases hl : signal_frameworks.lookup s with
      | none => exact ih used
      | some v =>
          obtain ⟨fid, title, rationale⟩ := v
          by_cases hu : fid ∈ used
          · simp only [if_pos hu]; exact ih used
          · simp only [if_neg hu, List.map_cons]
            obtain ⟨ihn, ihd⟩ := ih (fid :: used)
            constructor
            · refine List.nodup_cons.mpr ⟨?_, ihn⟩
              intro hmem
              exact ihd fid hmem (List.mem_cons_self fid used)
            · intro f hf
              rcases List.mem_cons.mp hf with hf | hf
              · subst hf; exact hu
              · intro hfu
                exact ihd f hf (List.mem_cons_of_mem fid hfu)

theorem buildSignalRecs_length (ss used : List String) :
    (buildSignalRecs ss used).length ≤ ss.length := by
  induction ss generalizing used with
  | nil => simp [buildSignalRecs]
  | cons s rest ih =>
      rw [buildSignalRecs]
      cases hl : signal_frameworks.lookup s with
      | none => exact Nat.le_succ_of_le (ih used)
      | some v =>
          obtain ⟨fid, title, rationale⟩ := v
          by_cases hu : fid ∈ used
          · simp only [if_pos hu]; exact Nat.le_succ_of_le (ih used)
          · simp only [if_neg hu, List.length_cons]
            exact Nat.succ_le_succ (ih (fid :: used))

/-- C1 counterexample: on the failure-fallback path, the context analysis with
the single detected signal "causal_ambiguity" produces only ONE recommendation
(the claimed lower bound is 3), and the detected signal "uncertainty_high"
produces the framework_id "cynefin", which does not resolve to any entry of the
static catalog ALL_FRAMEWORKS. -/
theorem recommender_cardinality_counterexample :
    (fallback_recommendations ["causal_ambiguity"] "err").recommended_frameworks.length = 1 ∧
    ¬ (3 ≤ (fallback_recommendations ["causal_ambiguity"] "err").recommended_frameworks.length) ∧
    ((fallback_recommendations ["uncertainty_high"] "err").recommended_frameworks.map
        FwRecommendation.framework_id) = ["cynefin"] ∧
    ALL_FRAMEWORKS.lookup "cynefin" = none := by
  refine ⟨by decide, by decide, by decide, by decide⟩

/-- C1 amended: for every context-analysis input reaching the failure-fallback
path, the recommendation list has between 1 and 7 elements (at most 4 from
signals; exactly 3 diverse defaults when no mapped signal is detected), all
framework_id values are pairwise distinct, and every framework_id resolves to an
entry of the static catalog ALL_FRAMEWORKS except the ids "cynefin" and
"decision_trees", produced for the signals "uncertainty_high" and
"strategic_choice", which do not resolve. -/
theorem recommender_fallback_cardinality (signals : List String) (e : String) :
    1 ≤ (fallback_recommendations signals e).recommended_frameworks.length ∧
    (fallback_recommendations signals e).recommended_frameworks.length ≤ 7 ∧
    ((fallback_recommendations signals e).recommended_frameworks.map
        FwRecommendation.framework_id).Nodup ∧
    ((fallback_recommendations signals e).recommended_frameworks.all
        (fun r => catalogOk r.framework_id)) = true := by
  have hrec : (fallback_recommendations signals e).recommended_frameworks =
      fallbackRecsList signals := rfl
  rw [hrec]
  unfold fallbackRecsList
  set fromSignals := buildSignalRecs (signals.take 4) [] with hfs
  by_cases hempty : fromSignals.isEmpty
  · simp only [hempty, if_true]
    refine ⟨by decide, by decide, ?_, ?_⟩
    · have : (((diverse_defaults.take 3).map mkDefaultRec).map enrichFallback).map
          FwRecommendation.framework_id =
          ((diverse_defaults.take 3).map mkDefaultRec).map FwRecommendation.framework_id := by
        rw [List.map_map]
        exact List.map_congr_left (fun r _ => enrichFallback_id r)
      rw [this]; decide
    · decide
  · simp only [hempty, Bool.false_eq_true, if_false]
    have hne : fromSignals ≠ [] := by
      intro h; rw [h] at hempty; exact hempty rfl
    have hlen : 1 ≤ fromSignals.length := by
      cases h : fromSignals with
      | nil => exact absurd h hne
      | cons a l => simp
    have hids : (fromSignals.map enrichFallback).map FwRecommendation.framework_id =
        fromSignals.map FwRecommendation.framework_id := by
      rw [List.map_map]
      exact List.map_congr_left (fun r _ => enrichFallback_id r)
    refine ⟨by simpa using hlen, ?_, ?_, ?_⟩
    · have h4 : fromSignals.length ≤ 4 := by
        rw [hfs]
        refine Nat.le_trans (buildSignalRecs_length (signals.take 4) []) ?_
        rw [List.length_take]
        exact min_le_left _ _
      simpa using Nat.le_trans h4 (by norm_num)
    · rw [hids]
      exact (buildSignalRecs_nodup (signals.take 4) []).1
    · have hall := buildSignalRecs_catalogOk (signals.take 4) []
      rw [List.all_eq_true] at hall ⊢
      intro r hr
      rw [List.mem_map] at hr
      obtain ⟨r0, hr0, hre⟩ := hr
      rw [← hre, enrichFallback_id]
      exact hall r0 hr0

/-! Diagnosis Consolidator (src/agents/diagnosis_consolidator.py).
`diagnose` returns the canonical default for conversations shorter than 2
messages, otherwise runs the four classifier agents (each modelled by its
upstream parse outcome) and consolidates.  The consolidation LLM call is the
`llm : Except String DiagnosisOutput` argument; on success the parsed value is
returned with `ui_updates` injected from the classifier outputs when the parsed
response lacks that key, and on any exception `_fallback_consolidation`
computes the rule-based decision table. -/

structure DimLevel where
  level : String
  confidence : ℚ
deriving DecidableEq

structure Knowability where
  position : ℚ
  label : String
deriving DecidableEq

structure WickDim where
  level : String
  characteristics_count : Nat
deriving DecidableEq

structure ProfileDiagnosis where
  definition : DimLevel
  complexity : DimLevel
  knowability : Knowability
  wickedness : WickDim
deriving DecidableEq

structure Profile where
  name : String
  summary : String
  diagnosis : ProfileDiagnosis
  overall_difficulty : String
  recommended_approach : String
  framework_matches : List String
deriving DecidableEq

structure ResearchRec where
  recommended : Bool
  urgency : String
  reason : String
  suggested_focus : List String
deriving DecidableEq

structure UiUpdates where
  definition : String
  complexity : String
  risk_uncertainty : ℚ
  wickedness : String
  show_research_prompt : Bool
  research_prompt_text : String
deriving DecidableEq

structure DiagnosisOutput where
  profile : Profile
  research : ResearchRec
  ui_updates : Option UiUpdates
deriving DecidableEq

structure Message where
  role : String
  content : String
deriving DecidableEq

def DiagnosisConsolidator.defaultDiagnosis : DiagnosisOutput :=
  { profile :=
      { name := "Just Starting"
        summary := "Let\x27s explore your challenge together."
        diagnosis :=
          { definition := { level := "undefined", confidence := 0.3 }
            complexity := { level := "complex", confidence := 0.3 }
            knowability := { position := 0.5, label := "balanced" }
            wickedness := { level := "messy", characteristics_count := 0 } }
        overall_difficulty := "medium"
        recommended_approach := "Analysis"
        framework_matches := ["Problem Discovery", "Design Thinking"] }
    research :=
      { recommended := false
        urgency := "low"
        reason := "Continue the conversation first"
        suggested_focus := [] }
    ui_updates := some
      { definition := "undefined"
        complexity := "complex"
        risk_uncertainty := 0.5
        wickedness := "messy"
        show_research_prompt := false
        research_prompt_text := "" } }

/-- The profile name / approach / framework-matches selection of
`_fallback_consolidation`, keyed on the definition, complexity and wickedness
labels (the if/elif chain of the source, in order). -/
def fallbackProfileSelection (def_level comp_level wick_level : String) :
    String × String × List String :=
  if def_level = "undefined" ∧ comp_level ∈ ["complex", "chaotic"] then
    ("Early Exploration", "Sense-making", ["Beautiful Questions", "Problem Discovery"])
  else if def_level = "well-defined" ∧ comp_level = "simple" then
    ("Ready to Execute", "Execution", ["Solution Validation", "MVP Testing"])
  else if def_level = "ill-defined" ∧ comp_level = "complicated" then
    ("Needs Analysis", "Analysis", ["Root Cause Analysis", "Hypothesis Testing"])
  else if wick_level ∈ ["complex", "wicked"] then
    ("Systemic Challenge", "Experimentation", ["Systems Thinking", "Stakeholder Mapping"])
  else
    ("Innovation Challenge", "Analysis", ["Design Thinking", "Jobs to Be Done"])

def DiagnosisConsolidator.fallbackConsolidation (definition : DefinitionResult)
    (complexity : ComplexityResult) (risk : RiskResult) (wickedness : WickednessResult)
    (_error : String) : DiagnosisOutput :=
  let def_level := definition.definition_level
  let comp_level := complexity.complexity_level
  let risk_pos := risk.position
  let wick_level := wickedness.wickedness_level
  let sel := fallbackProfileSelection def_level comp_level wick_level
  { profile :=
      { name := sel.1
        summary := "Based on current analysis of your challenge."
        diagnosis :=
          { definition := { level := def_level, confidence := definition.confidence }
            complexity := { level := comp_level, confidence := complexity.confidence }
            knowability := { position := risk_pos, label := risk.label }
            wickedness :=
              { level := wick_level
                characteristics_count := wickedness.wicked_characteristics.length } }
        overall_difficulty := "medium"
        recommended_approach := sel.2.1
        framework_matches := sel.2.2 }
    research :=
      { recommended := def_level = "undefined" ∨ wick_level ∈ ["complex", "wicked"]
        urgency := if def_level = "undefined" then "medium" else "low"
        reason := "Additional context would help clarify the problem"
        suggested_focus := ["Market validation", "Similar cases"] }
    ui_updates := some
      { definition := def_level
        complexity := comp_level
        risk_uncertainty := risk_pos
        wickedness := wick_level
        show_research_prompt := def_level = "undefined"
        research_prompt_text := "üîç Research this problem" } }

def DiagnosisConsolidator.injectedUiUpdates (definition : DefinitionResult)
    (complexity : ComplexityResult) (risk : RiskResult)
    (wickedness : WickednessResult) : UiUpdates :=
  { definition := definition.definition_level
    complexity := complexity.complexity_level
    risk_uncertainty := risk.position
    wickedness := wickedness.wickedness_level
    show_research_prompt := true
    research_prompt_text := "üîç Research this problem" }

def DiagnosisConsolidator.consolidateWithFileSearch (definition : DefinitionResult)
    (complexity : ComplexityResult) (risk : RiskResult) (wickedness : WickednessResult)
    (llm : Except String DiagnosisOutput) : DiagnosisOutput :=
  match llm with
  | .ok result =>
      match result.ui_updates with
      | none =>
          let ui := DiagnosisConsolidator.injectedUiUpdates definition complexity risk wickedness
          { result with ui_updates := some ui }
      | some _ => result
  | .error e =>
      DiagnosisConsolidator.fallbackConsolidation definition complexity risk wickedness e

def DiagnosisConsolidator.diagnose (conversation : List Message)
    (defUp : Except String DefinitionResult) (compUp : Except String ComplexityResult)
    (riskUp : Except String RiskResult) (wickUp : Except String WickednessResult)
    (llm : Except String DiagnosisOutput) : DiagnosisOutput :=
  if conversation.length < 2 then DiagnosisConsolidator.defaultDiagnosis
  else
    DiagnosisConsolidator.consolidateWithFileSearch
      (DefinitionClassifier.classify defUp)
      (ComplexityAssessor.assess compUp)
      (RiskUncertaintyEvaluator.evaluate riskUp)
      (WicknessClassifier.classify wickUp)
      llm

/-- Modelled from the spec: the documented decision table mapping the joint
label combination to the profile name and recommended approach (spec section on
the Diagnosis Consolidator, rules read in order). -/
def specDecisionTable (def_level comp_level wick_level : String) : String × String :=
  if def_level = "undefined" ∧ (comp_level = "complex" ∨ comp_level = "chaotic") then
    ("Early Exploration", "Sense-making")
  else if def_level = "well-defined" ∧ comp_level = "simple" then
    ("Ready to Execute", "Execution")
  else if def_level = "ill-defined" ∧ comp_level = "complicated" then
    ("Needs Analysis", "Analysis")
  else if wick_level = "complex" ∨ wick_level = "wicked" then
    ("Systemic Challenge", "Experimentation")
  else
    ("Innovation Challenge", "Analysis")

theorem fallbackProfileSelection_spec (dl cl wl : String) :
    ((fallbackProfileSelection dl cl wl).1, (fallbackProfileSelection dl cl wl).2.1) =
      specDecisionTable dl cl wl := by
  unfold fallbackProfileSelection specDecisionTable
  simp only [List.mem_cons, List.mem_singleton, List.not_mem_nil, or_false]
  split_ifs <;> rfl

def c3def : DefinitionResult :=
  { definition_level := "undefined", confidence := 0.9, evidence := [], reasoning := "r" }

def c3comp : ComplexityResult :=
  { complexity_level := "complex", confidence := 0.9, evidence := [], reasoning := "r" }

def c3risk : RiskResult :=
  { position := 0.5, label := "balanced", confidence := 0.9, evidence := [], reasoning := "r" }

def c3wick : WickednessResult :=
  { wickedness_level := "tame", confidence := 0.9, wicked_characteristics := [],
    evidence := [], reasoning := "r" }

def c3conv : List Message :=
  [ { role := "user", content := "We keep losing customers" }
  , { role := "assistant", content := "Tell me more" } ]

def c3resp : DiagnosisOutput :=
  { profile :=
      { name := "Custom Profile"
        summary := "s"
        diagnosis :=
          { definition := { level := "undefined", confidence := 0.9 }
            complexity := { level := "complex", confidence := 0.9 }
            knowability := { position := 0.5, label := "balanced" }
            wickedness := { level := "tame", characteristics_count := 0 } }
        overall_difficulty := "medium"
        recommended_approach := "Custom Approach"
        framework_matches := [] }
    research :=
      { recommended := false, urgency := "low", reason := "", suggested_focus := [] }
    ui_updates := some
      { definition := "undefined", complexity := "complex", risk_uncertainty := 0.5,
        wickedness := "tame", show_research_prompt := false, research_prompt_text := "" } }

/-- C3 counterexample: with the same fixed quadruple of ClassificationResults
(definition "undefined", complexity "complex", wickedness "tame"), diagnose
returns the profile name and approach of the parsed consolidation response when
that LLM call succeeds ("Custom Profile"/"Custom Approach") and the decision
table value ("Early Exploration"/"Sense-making") only when it fails — so the
name/approach returned by diagnose is not a pure function of the 4 labels. -/
theorem diagnosis_purity_counterexample :
    (DiagnosisConsolidator.diagnose c3conv (.ok c3def) (.ok c3comp) (.ok c3risk)
        (.ok c3wick) (.ok c3resp)).profile.name = "Custom Profile" ∧
    (DiagnosisConsolidator.diagnose c3conv (.ok c3def) (.ok c3comp) (.ok c3risk)
        (.ok c3wick) (.error "boom")).profile.name = "Early Exploration" ∧
    (DiagnosisConsolidator.diagnose c3conv (.ok c3def) (.ok c3comp) (.ok c3risk)
        (.ok c3wick) (.ok c3resp)).profile.recommended_approach = "Custom Approach" ∧
    (DiagnosisConsolidator.diagnose c3conv (.ok c3def) (.ok c3comp) (.ok c3risk)
        (.ok c3wick) (.error "boom")).profile.recommended_approach = "Sense-making" ∧
    ("Custom Profile" : String) ≠ "Early Exploration" := by
  refine ⟨by decide, by decide, by decide, by decide, by decide⟩

/-- C3 amended: whenever the consolidation LLM call fails, diagnose (with at
least 2 messages) returns the profile name and recommended_approach given
exactly by the documented decision table over the four classifier labels, and
the returned value is independent of the error message — so on the fallback
path the name/approach mapping is a pure function of the 4 labels; on the LLM
success path the name/approach is taken from the parsed response instead. -/
theorem diagnosis_fallback_decision_table (d : DefinitionResult) (c : ComplexityResult)
    (r : RiskResult) (w : WickednessResult) (e e' : String) (conv : List Message)
    (h : 2 ≤ conv.length) :
    ((DiagnosisConsolidator.diagnose conv (.ok d) (.ok c) (.ok r) (.ok w)
        (.error e)).profile.name,
      (DiagnosisConsolidator.diagnose conv (.ok d) (.ok c) (.ok r) (.ok w)
        (.error e)).profile.recommended_approach) =
      specDecisionTable d.definition_level c.complexity_level w.wickedness_level ∧
    DiagnosisConsolidator.diagnose conv (.ok d) (.ok c) (.ok r) (.ok w) (.error e) =
      DiagnosisConsolidator.diagnose conv (.ok d) (.ok c) (.ok r) (.ok w) (.error e') := by
  have hlt : ¬ conv.length < 2 := by omega
  unfold DiagnosisConsolidator.diagnose
  rw [if_neg hlt, if_neg hlt]
  constructor
  · exact fallbackProfileSelection_spec d.definition_level c.complexity_level
      w.wickedness_level
  · rfl

/-- C3 amended witness: the amended theorem applied at the concrete quadruple
and the concrete 2-message conversation. -/
theorem diagnosis_fallback_decision_table_witness :
    ((DiagnosisConsolidator.diagnose c3conv (.ok c3def) (.ok c3comp) (.ok c3risk)
        (.ok c3wick) (.error "boom")).profile.name,
      (DiagnosisConsolidator.diagnose c3conv (.ok c3def) (.ok c3comp) (.ok c3risk)
        (.ok c3wick) (.error "boom")).profile.recommended_approach) =
      specDecisionTable c3def.definition_level c3comp.complexity_level
        c3wick.wickedness_level ∧
    DiagnosisConsolidator.diagnose c3conv (.ok c3def) (.ok c3comp) (.ok c3risk)
        (.ok c3wick) (.error "boom") =
      DiagnosisConsolidator.diagnose c3conv (.ok c3def) (.ok c3comp) (.ok c3risk)
        (.ok c3wick) (.error "other") :=
  diagnosis_fallback_decision_table c3def c3comp c3risk c3wick "boom" "other" c3conv
    (by decide)

/-- C10: every value returned by DiagnosisConsolidator.diagnose carries a
ui_updates value — the short-conversation default and the failure fallback both
include it, and when the parsed consolidation response lacks it, it is injected
from the four classifier outputs before returning. -/
theorem diagnose_always_ui_updates (conv : List Message)
    (defUp : Except String DefinitionResult) (compUp : Except String ComplexityResult)
    (riskUp : Except String RiskResult) (wickUp : Except String WickednessResult)
    (llm : Except String DiagnosisOutput) :
    (DiagnosisConsolidator.diagnose conv defUp compUp riskUp wickUp llm).ui_updates.isSome
        = true ∧
    (∀ resp : DiagnosisOutput, llm = .ok resp → resp.ui_updates = none →
      ¬ conv.length < 2 →
      (DiagnosisConsolidator.diagnose conv defUp compUp riskUp wickUp llm).ui_updates =
        some (DiagnosisConsolidator.injectedUiUpdates (DefinitionClassifier.classify defUp)
          (ComplexityAssessor.assess compUp) (RiskUncertaintyEvaluator.evaluate riskUp)
          (WicknessClassifier.classify wickUp))) := by
  unfold DiagnosisConsolidator.diagnose
  by_cases hlt : conv.length < 2
  · rw [if_pos hlt]
    refine ⟨rfl, ?_⟩
    intro resp _ _ hcontr
    exact absurd hlt hcontr
  · rw [if_neg hlt]
    unfold DiagnosisConsolidator.consolidateWithFileSearch
    cases llm with
    | error e => exact ⟨rfl, fun resp hok => absurd hok (by simp)⟩
    | ok resp0 =>
        cases hu : resp0.ui_updates with
        | none =>
            simp only [hu]
            refine ⟨rfl, ?_⟩
            intro resp hok _ _
            trivial
        | some u =>
            simp only [hu]
            refine ⟨by simp [hu], ?_⟩
            intro resp hok hnone _
            have he : resp0 = resp := by
              injection hok
            rw [← he, hu] at hnone
            exact absurd hnone (by simp)

def c10conv : List Message :=
  [ { role := "user", content := "a" }
  , { role := "assistant", content := "b" } ]

def c10resp : DiagnosisOutput :=
  { profile :=
      { name := "P"
        summary := "s"
        diagnosis :=
          { definition := { level := "undefined", confidence := 0.5 }
            complexity := { level := "complex", confidence := 0.5 }
            knowability := { position := 0.5, label := "balanced" }
            wickedness := { level := "messy", characteristics_count := 0 } }
        overall_difficulty := "medium"
        recommended_approach := "Analysis"
        framework_matches := [] }
    research :=
      { recommended := false, urgency := "low", reason := "", suggested_focus := [] }
    ui_updates := none }

/-- C10 witness: the theorem applied at a concrete 2-message conversation with
a parsed consolidation response lacking ui_updates — the injected value built
from the four classifier outputs is returned. -/
theorem diagnose_always_ui_updates_witness :
    (DiagnosisConsolidator.diagnose c10conv (.error "e1") (.error "e2") (.error "e3")
        (.error "e4") (.ok c10resp)).ui_updates =
      some (DiagnosisConsolidator.injectedUiUpdates
        (DefinitionClassifier.classify (.error "e1"))
        (ComplexityAssessor.assess (.error "e2"))
        (RiskUncertaintyEvaluator.evaluate (.error "e3"))
        (WicknessClassifier.classify (.error "e4"))) :=
  (diagnose_always_ui_updates c10conv (.error "e1") (.error "e2") (.error "e3")
    (.error "e4") (.ok c10resp)).2 c10resp rfl rfl (by decide)

/-! Framework Executor (src/agents/framework_executor.py).
`execute` returns a distinct "not found" response when the framework_id does not
resolve in the catalog, the parsed LLM output (with citations, id and title
attached) on success, and `_fallback_execution` on any exception.  The fallback
ignores the pyramid analysis (its `scqa` variable is assigned but never used),
so it is a function of the framework template and the error string alone. -/

structure QAnswer where
  question : String
  answer : String
  evidence : String
deriving DecidableEq

structure FrameworkAnalysis where
  summary : String
  key_questions_answered : List QAnswer
  framework_output : List (String × String)
  insights : List String
  opportunities : List String
  risks_or_gaps : List String
  recommended_next_steps : List String
deriving DecidableEq

structure ExecCitation where
  title : String
  text : String
  source : String
deriving DecidableEq

structure ExecResult where
  framework_id : String
  framework_title : String
  framework_analysis : Option FrameworkAnalysis
  methodology_notes : String
  confidence_level : ℚ
  needs_more_info : List String
  citations : List ExecCitation
  error : Option String
deriving DecidableEq

/-- Character-wise model of `title.lower().replace(" ", "_").replace("-", "_")`. -/
def pyFrameworkId (t : String) : String :=
  String.mk (t.toList.map (fun ch => if ch = ' ' ∨ ch = '-' then '_' else ch.toLower))

def FrameworkExecutor.errorResponse (error : String) : ExecResult :=
  { framework_id := "error"
    framework_title := "Error"
    framework_analysis := none
    methodology_notes := ""
    confidence_level := 0
    needs_more_info := []
    citations := []
    error := some error }

def FrameworkExecutor.fallbackExecution (framework : FrameworkTemplate)
    (error : String) : ExecResult :=
  { framework_id := pyFrameworkId framework.title
    framework_title := framework.title
    framework_analysis := some
      { summary := "Applying " ++ framework.title ++ " to analyze the problem context."
        key_questions_answered :=
          (framework.key_questions.take 3).map (fun q =>
            { question := q
              answer := "Analysis pending - requires deeper exploration"
              evidence := "Based on conversation context" })
        framework_output :=
          framework.output_structure.map (fun p => (p.1, "To be determined"))
        insights :=
          ["The " ++ framework.title ++ " framework suggests examining: " ++
            framework.when_to_use]
        opportunities := ["Further analysis recommended"]
        risks_or_gaps := ["Incomplete information for full analysis"]
        recommended_next_steps := framework.key_questions.take 2 }
    methodology_notes := "Analysis based on PWS methodology principles"
    confidence_level := 0.4
    needs_more_info := framework.required_concepts.take 3
    citations := []
    error := some error }

def FrameworkExecutor.execute (framework_id : String)
    (llm : Except String ExecResult) (grounding : List ExecCitation) : ExecResult :=
  match ALL_FRAMEWORKS.lookup framework_id with
  | none =>
      FrameworkExecutor.errorResponse ("Framework \x27" ++ framework_id ++ "\x27 not found")
  | some framework =>
      match llm with
      | .ok parsed =>
          { parsed with
              citations := grounding
              framework_id := framework_id
              framework_title := framework.title }
      | .error e => FrameworkExecutor.fallbackExecution framework e

/-- C7 counterexample: for the catalog framework jobs_to_be_done (which has 5
key questions), a failing execution produces a fallback in which only the first
3 key questions are answered with a placeholder — so not every key_question of
the framework is answered. -/
theorem executor_fallback_counterexample :
    (FrameworkExecutor.execute "jobs_to_be_done" (.error "boom") []).framework_analysis.map
        (fun a => a.key_questions_answered.length) = some 3 ∧
    jobs_to_be_done.key_questions.length = 5 ∧
    (3 : Nat) ≠ 5 := by
  refine ⟨by decide, by decide, by decide⟩

/-- C7 amended: for every framework in the catalog and every failing execution,
FrameworkExecutor.execute returns (without raising) a structurally valid
fallback in which the FIRST THREE key_questions of the framework are answered
with the fixed placeholder, every key of the output_structure of the framework is
filled with "To be determined", confidence_level equals the fixed low value
0.4, and the raised error is recorded in the result. -/
theorem executor_fallback_shape (framework_id : String) (framework : FrameworkTemplate)
    (h : ALL_FRAMEWORKS.lookup framework_id = some framework) (e : String)
    (grounding : List ExecCitation) :
    ∃ a : FrameworkAnalysis,
      (FrameworkExecutor.execute framework_id (.error e) grounding).framework_analysis =
          some a ∧
      a.key_questions_answered = (framework.key_questions.take 3).map (fun q =>
        { question := q
          answer := "Analysis pending - requires deeper exploration"
          evidence := "Based on conversation context" }) ∧
      a.framework_output = framework.output_structure.map (fun p => (p.1, "To be determined")) ∧
      (FrameworkExecutor.execute framework_id (.error e) grounding).confidence_level = 0.4 ∧
      (FrameworkExecutor.execute framework_id (.error e) grounding).error = some e := by
  unfold FrameworkExecutor.execute
  rw [h]
  exact ⟨_, rfl, rfl, rfl, rfl, rfl⟩

/-- C7 amended witness: the theorem applied to the concrete catalog entry
jobs_to_be_done with a concrete error. -/
theorem executor_fallback_shape_witness :
    ∃ a : FrameworkAnalysis,
      (FrameworkExecutor.execute "jobs_to_be_done" (.error "boom") []).framework_analysis =
          some a ∧
      a.key_questions_answered = (jobs_to_be_done.key_questions.take 3).map (fun q =>
        { question := q
          answer := "Analysis pending - requires deeper exploration"
          evidence := "Based on conversation context" }) ∧
      a.framework_output =
          jobs_to_be_done.output_structure.map (fun p => (p.1, "To be determined")) ∧
      (FrameworkExecutor.execute "jobs_to_be_done" (.error "boom") []).confidence_level
          = 0.4 ∧
      (FrameworkExecutor.execute "jobs_to_be_done" (.error "boom") []).error = some "boom" :=
  executor_fallback_shape "jobs_to_be_done" jobs_to_be_done (by decide) "boom" []

/-! Framework Consolidator: citation merging (src/agents/framework_consolidator.py,
`_merge_citations`).  The Python loop walks results and their citations, keeps a
`seen_titles` set, appends a fresh entry (tagged with the framework_id of the
contributing result) for an unseen non-empty title, and appends the framework_id to the
first existing entry for an already-seen title; citations whose title is the
empty string (falsy) match neither branch and are dropped.
`used_by_frameworks` is an `Option` because the single-framework report copies
raw executor citations, which lack that key. -/

structure MergedCitation where
  title : String
  text : String
  source : String
  used_by_frameworks : Option (List String)
deriving DecidableEq

def appendFidToFirst : List MergedCitation → String → String → List MergedCitation
  | [], _, _ => []
  | m :: ms, t, fid =>
    if m.title = t then
      { m with used_by_frameworks := some (m.used_by_frameworks.getD [] ++ [fid]) } :: ms
    else
      m :: appendFidToFirst ms t fid

def mergeStep (fid : String) (c : ExecCitation)
    (st : List MergedCitation × List String) : List MergedCitation × List String :=
  if c.title ≠ "" ∧ c.title ∉ st.2 then
    (st.1 ++ [{ title := c.title, text := c.text, source := c.source,
                used_by_frameworks := some [fid] }],
     c.title :: st.2)
  else if c.title ∈ st.2 then
    (appendFidToFirst st.1 c.title fid, st.2)
  else st

def FrameworkConsolidator.mergeCitations (framework_results : List ExecResult) :
    List MergedCitation :=
  (framework_results.foldl
    (fun st r => r.citations.foldl (fun st c => mergeStep r.framework_id c st) st)
    ([], [])).1

/-! Proof infrastructure for the merge: the nested fold is flattened to a fold
over (framework_id, citation) pairs, and the fold state is characterised by a
reachability invariant. -/

def citationPairs (results : List ExecResult) : List (String × ExecCitation) :=
  results.foldr (fun r acc => r.citations.map (fun c => (r.framework_id, c)) ++ acc) []

def processPairs (ps : List (String × ExecCitation))
    (st : List MergedCitation × List String) : List MergedCitation × List String :=
  ps.foldl (fun st p => mergeStep p.1 p.2 st) st

theorem processPairs_append (ps qs : List (String × ExecCitation)) (st) :
    processPairs (ps ++ qs) st = processPairs qs (processPairs ps st) := by
  unfold processPairs
  apply List.foldl_append

theorem mergeCitations_eq_processPairs (results : List ExecResult) :
    FrameworkConsolidator.mergeCitations results = (processPairs (citationPairs results) ([], [])).1 := by
  suffices h : ∀ (rs : List ExecResult) (st : List MergedCitation × List String),
      rs.foldl (fun st r => r.citations.foldl (fun st c => mergeStep r.framework_id c st) st) st =
        processPairs (citationPairs rs) st by
    unfold FrameworkConsolidator.mergeCitations
    rw [h]
  intro rs
  induction rs with
  | nil => intro st; rfl
  | cons r rest ih =>
      intro st
      have hone : ∀ (cs : List ExecCitation) (fid : String) (st0 : List MergedCitation × List String),
          cs.foldl (fun st c => mergeStep fid c st) st0 =
            processPairs (cs.map (fun c => (fid, c))) st0 := by
        intro cs fid
        induction cs with
        | nil => intro st0; rfl
        | cons c cs ih2 => intro st0; exact ih2 (mergeStep fid c st0)
      show (rest.foldl _ (r.citations.foldl (fun st c => mergeStep r.framework_id c st) st)) = _
      rw [ih, hone]
      have : citationPairs (r :: rest) =
          r.citations.map (fun c => (r.framework_id, c)) ++ citationPairs rest := rfl
      rw [this, processPairs_append]

def goodState (st : List MergedCitation × List String) : Prop :=
  (st.1.map MergedCitation.title).Nodup ∧
  (∀ t, t ∈ st.2 ↔ t ∈ st.1.map MergedCitation.title) ∧
  "" ∉ st.2

def usedIn (acc : List MergedCitation) (t fid : String) : Prop :=
  ∃ m ∈ acc, m.title = t ∧ fid ∈ m.used_by_frameworks.getD []

theorem appendFidToFirst_titles (acc : List MergedCitation) (t fid : String) :
    (appendFidToFirst acc t fid).map MergedCitation.title = acc.map MergedCitation.title := by
  induction acc with
  | nil => rfl
  | cons m ms ih =>
      rw [appendFidToFirst]
      by_cases hm : m.title = t
      · simp [hm]
      · simp [hm, ih]

theorem appendFidToFirst_usedIn (acc : List MergedCitation) (t0 f : String)
    (hmem : t0 ∈ acc.map MergedCitation.title) (t fid : String) :
    usedIn (appendFidToFirst acc t0 f) t fid ↔
      usedIn acc t fid ∨ (t = t0 ∧ fid = f) := by
  induction acc with
  | nil => simp at hmem
  | cons m ms ih =>
      rw [appendFidToFirst]
      by_cases hm : m.title = t0
      · simp only [if_pos hm]
        unfold usedIn
        simp only [List.mem_cons, Option.getD_some]
        constructor
        · rintro ⟨x, hx, hxt, hxf⟩
          rcases hx with hx | hx
          · subst hx
            simp only [Option.getD_some] at hxf
            rcases List.mem_append.mp hxf with hf | hf
            · exact Or.inl ⟨m, Or.inl rfl, hxt, hf⟩
            · rw [List.mem_singleton] at hf
              exact Or.inr ⟨by rw [← hxt, hm], hf⟩
          · exact Or.inl ⟨x, Or.inr hx, hxt, hxf⟩
        · rintro (⟨x, hx, hxt, hxf⟩ | ⟨ht, hf⟩)
          · rcases hx with hx | hx
            · subst hx
              refine ⟨_, Or.inl rfl, hxt, ?_⟩
              simp only [Option.getD_some]
              exact List.mem_append.mpr (Or.inl hxf)
            · exact ⟨x, Or.inr hx, hxt, hxf⟩
          · refine ⟨_, Or.inl rfl, by rw [hm, ht], ?_⟩
            simp only [Option.getD_some]
            exact List.mem_append.mpr (Or.inr (List.mem_singleton.mpr hf))
      · simp only [if_neg hm]
        have hmem' : t0 ∈ ms.map MergedCitation.title := by
          rcases List.mem_map.mp hmem with ⟨x, hx, hxt⟩
          rcases List.mem_cons.mp hx with hx | hx
          · exact absurd (hx ▸ hxt) hm
          · exact List.mem_map.mpr ⟨x, hx, hxt⟩
        unfold usedIn
        simp only [List.mem_cons]
        constructor
        · rintro ⟨x, hx, hxt, hxf⟩
          rcases hx with hx | hx
          · exact Or.inl ⟨m, Or.inl rfl, hx ▸ hxt, hx ▸ hxf⟩
          · rcases (ih hmem').mp ⟨x, hx, hxt, hxf⟩ with h | h
            · obtain ⟨y, hy, hyt, hyf⟩ := h
              exact Or.inl ⟨y, Or.inr hy, hyt, hyf⟩
            · exact Or.inr h
        · rintro (⟨x, hx, hxt, hxf⟩ | ⟨ht, hf⟩)
          · rcases hx with hx | hx
            · exact ⟨m, Or.inl rfl, hx ▸ hxt, hx ▸ hxf⟩
            · rcases (ih hmem').mpr (Or.inl ⟨x, hx, hxt, hxf⟩) with ⟨y, hy, hyt, hyf⟩
              exact ⟨y, Or.inr hy, hyt, hyf⟩
          · rcases (ih hmem').mpr (Or.inr ⟨ht, hf⟩) with ⟨y, hy, hyt, hyf⟩
            exact ⟨y, Or.inr hy, hyt, hyf⟩

theorem mergeStep_good (fid : String) (c : ExecCitation)
    (st : List MergedCitation × List String) (hgood : goodState st) :
    goodState (mergeStep fid c st) := by
  obtain ⟨hnd, hiff, hnil⟩ := hgood
  unfold mergeStep
  by_cases h1 : c.title ≠ "" ∧ c.title ∉ st.2
  · rw [if_pos h1]
    refine ⟨?_, ?_, ?_⟩
    · rw [List.map_append]
      apply List.Nodup.append hnd (by simp)
      intro t ht1 ht2
      simp only [List.map_cons, List.map_nil, List.mem_singleton] at ht2
      subst ht2
      exact h1.2 ((hiff _).mpr ht1)
    · intro t
      rw [List.map_append]
      simp only [List.mem_cons, List.mem_append, List.map_cons, List.map_nil,
        List.mem_singleton]
      rw [hiff t]
      tauto
    · simp only [List.mem_cons]
      rintro (h | h)
      · exact h1.1 h.symm
      · exact hnil h
  · rw [if_neg h1]
    by_cases h2 : c.title ∈ st.2
    · rw [if_pos h2]
      refine ⟨?_, ?_, hnil⟩
      · rw [appendFidToFirst_titles]; exact hnd
      · intro t; rw [appendFidToFirst_titles]; exact hiff t
    · rw [if_neg h2]
      exact ⟨hnd, hiff, hnil⟩

theorem mergeStep_titlesMem (fid : String) (c : ExecCitation)
    (st : List MergedCitation × List String) (hgood : goodState st) (t : String) :
    t ∈ (mergeStep fid c st).1.map MergedCitation.title ↔
      t ∈ st.1.map MergedCitation.title ∨ (c.title ≠ "" ∧ t = c.title) := by
  obtain ⟨hnd, hiff, hnil⟩ := hgood
  unfold mergeStep
  by_cases h1 : c.title ≠ "" ∧ c.title ∉ st.2
  · rw [if_pos h1]
    simp only [List.map_append, List.mem_append, List.map_cons, List.map_nil,
      List.mem_singleton]
    tauto
  · rw [if_neg h1]
    by_cases h2 : c.title ∈ st.2
    · rw [if_pos h2]
      simp only [appendFidToFirst_titles]
      have hne : c.title ≠ "" := fun h => hnil (h ▸ h2)
      have hin : c.title ∈ st.1.map MergedCitation.title := (hiff _).mp h2
      constructor
      · exact Or.inl
      · rintro (h | ⟨_, h⟩)
        · exact h
        · exact h ▸ hin
    · rw [if_neg h2]
      have he : c.title = "" := by
        by_contra hne
        exact h1 ⟨hne, h2⟩
      simp only [he]
      constructor
      · exact Or.inl
      · rintro (h | ⟨h, _⟩)
        · exact h
        · exact absurd rfl h

theorem mergeStep_usedIn (fid : String) (c : ExecCitation)
    (st : List MergedCitation × List String) (hgood : goodState st) (t f : String) :
    usedIn (mergeStep fid c st).1 t f ↔
      usedIn st.1 t f ∨ (f = fid ∧ t = c.title ∧ c.title ≠ "") := by
  obtain ⟨hnd, hiff, hnil⟩ := hgood
  unfold mergeStep
  by_cases h1 : c.title ≠ "" ∧ c.title ∉ st.2
  · rw [if_pos h1]
    unfold usedIn
    simp only [List.mem_append, List.mem_singleton]
    constructor
    · rintro ⟨m, hm | hm, hmt, hmf⟩
      · exact Or.inl ⟨m, hm, hmt, hmf⟩
      · subst hm
        simp only [Option.getD_some, List.mem_singleton] at hmf
        exact Or.inr ⟨hmf, hmt.symm ▸ rfl, h1.1⟩
    · rintro (⟨m, hm, hmt, hmf⟩ | ⟨hf, ht, hne⟩)
      · exact ⟨m, Or.inl hm, hmt, hmf⟩
      · refine ⟨_, Or.inr rfl, ht.symm, ?_⟩
        simp only [Option.getD_some, List.mem_singleton]
        exact hf
  · rw [if_neg h1]
    by_cases h2 : c.title ∈ st.2
    · rw [if_pos h2]
      have hne : c.title ≠ "" := fun h => hnil (h ▸ h2)
      have hin : c.title ∈ st.1.map MergedCitation.title := (hiff _).mp h2
      rw [appendFidToFirst_usedIn st.1 c.title fid hin t f]
      tauto
    · rw [if_neg h2]
      have he : c.title = "" := by
        by_contra hcne
        exact h1 ⟨hcne, h2⟩
      simp only [he]
      tauto

theorem processPairs_good (ps : List (String × ExecCitation)) :
    ∀ st, goodState st → goodState (processPairs ps st) := by
  induction ps with
  | nil => intro st h; exact h
  | cons p ps ih =>
      intro st h
      exact ih (mergeStep p.1 p.2 st) (mergeStep_good p.1 p.2 st h)

theorem processPairs_titlesMem (ps : List (String × ExecCitation)) :
    ∀ st, goodState st → ∀ t,
      (t ∈ (processPairs ps st).1.map MergedCitation.title ↔
        t ∈ st.1.map MergedCitation.title ∨ (t ≠ "" ∧ ∃ p ∈ ps, p.2.title = t)) := by
  induction ps with
  | nil => intro st h t; simp [processPairs]
  | cons p ps ih =>
      intro st h t
      have hg := mergeStep_good p.1 p.2 st h
      have hrw : processPairs (p :: ps) st = processPairs ps (mergeStep p.1 p.2 st) := rfl
      rw [hrw, ih _ hg t, mergeStep_titlesMem p.1 p.2 st h t]
      constructor
      · rintro ((h0 | ⟨hne, heq⟩) | ⟨hne, q, hq, hqt⟩)
        · exact Or.inl h0
        · refine Or.inr ⟨by rw [heq]; exact hne, p, List.mem_cons_self p ps, heq.symm⟩
        · exact Or.inr ⟨hne, q, List.mem_cons_of_mem p hq, hqt⟩
      · rintro (h0 | ⟨hne, q, hq, hqt⟩)
        · exact Or.inl (Or.inl h0)
        · rcases List.mem_cons.mp hq with hq | hq
          · have hpt : p.2.title = t := by rw [← hq]; exact hqt
            exact Or.inl (Or.inr ⟨by rw [hpt]; exact hne, hpt.symm⟩)
          · exact Or.inr ⟨hne, q, hq, hqt⟩

theorem processPairs_usedIn (ps : List (String × ExecCitation)) :
    ∀ st, goodState st → ∀ t f,
      (usedIn (processPairs ps st).1 t f ↔
        usedIn st.1 t f ∨ (∃ p ∈ ps, p.1 = f ∧ p.2.title = t ∧ t ≠ "")) := by
  induction ps with
  | nil => intro st h t f; simp [processPairs]
  | cons p ps ih =>
      intro st h t f
      have hg := mergeStep_good p.1 p.2 st h
      have hrw : processPairs (p :: ps) st = processPairs ps (mergeStep p.1 p.2 st) := rfl
      rw [hrw, ih _ hg t f, mergeStep_usedIn p.1 p.2 st h t f]
      constructor
      · rintro ((h0 | ⟨hf, ht, hne⟩) | ⟨q, hq, hqf, hqt, hne⟩)
        · exact Or.inl h0
        · exact Or.inr ⟨p, List.mem_cons_self p ps, hf.symm, ht.symm,
            by rw [ht]; exact hne⟩
        · exact Or.inr ⟨q, List.mem_cons_of_mem p hq, hqf, hqt, hne⟩
      · rintro (h0 | ⟨q, hq, hqf, hqt, hne⟩)
        · exact Or.inl (Or.inl h0)
        · rcases List.mem_cons.mp hq with hq | hq
          · have hf : p.1 = f := by rw [← hq]; exact hqf
            have ht : p.2.title = t := by rw [← hq]; exact hqt
            exact Or.inl (Or.inr ⟨hf.symm, ht.symm, by rw [ht]; exact hne⟩)
          · exact Or.inr ⟨q, hq, hqf, hqt, hne⟩

theorem citationPairs_mem (results : List ExecResult) (p : String × ExecCitation) :
    p ∈ citationPairs results ↔
      ∃ r ∈ results, ∃ c ∈ r.citations, p = (r.framework_id, c) := by
  induction results with
  | nil => simp [citationPairs]
  | cons r rs ih =>
      have hrw : citationPairs (r :: rs) =
          r.citations.map (fun c => (r.framework_id, c)) ++ citationPairs rs := rfl
      rw [hrw]
      simp only [List.mem_append, List.mem_map, ih, List.mem_cons]
      constructor
      · rintro (⟨c, hc, hp⟩ | ⟨r0, hr0, c, hc, hp⟩)
        · exact ⟨r, Or.inl rfl, c, hc, hp.symm⟩
        · exact ⟨r0, Or.inr hr0, c, hc, hp⟩
      · rintro ⟨r0, hr0 | hr0, c, hc, hp⟩
        · subst hr0
          exact Or.inl ⟨c, hc, hp.symm⟩
        · exact Or.inr ⟨r0, hr0, c, hc, hp⟩

theorem goodState_nil : goodState ([], []) := by
  refine ⟨List.nodup_nil, ?_, ?_⟩ <;> simp

theorem mergeCitations_nodupTitles (results : List ExecResult) :
    ((FrameworkConsolidator.mergeCitations results).map MergedCitation.title).Nodup := by
  rw [mergeCitations_eq_processPairs]
  exact (processPairs_good (citationPairs results) ([], []) goodState_nil).1

theorem mergeCitations_titleMem (results : List ExecResult) (t : String) :
    (∃ m ∈ FrameworkConsolidator.mergeCitations results, m.title = t) ↔
      (t ≠ "" ∧ ∃ r ∈ results, ∃ c ∈ r.citations, c.title = t) := by
  rw [mergeCitations_eq_processPairs]
  have h1 : (∃ m ∈ (processPairs (citationPairs results) ([], [])).1, m.title = t) ↔
      t ∈ (processPairs (citationPairs results) ([], [])).1.map MergedCitation.title := by
    rw [List.mem_map]
  rw [h1, processPairs_titlesMem (citationPairs results) ([], []) goodState_nil t]
  simp only [List.map_nil, List.not_mem_nil, false_or]
  constructor
  · rintro ⟨hne, p, hp, hpt⟩
    rcases (citationPairs_mem results p).mp hp with ⟨r, hr, c, hc, hpe⟩
    refine ⟨hne, r, hr, c, hc, ?_⟩
    rw [hpe] at hpt
    exact hpt
  · rintro ⟨hne, r, hr, c, hc, hct⟩
    refine ⟨hne, (r.framework_id, c), ?_, hct⟩
    exact (citationPairs_mem results (r.framework_id, c)).mpr ⟨r, hr, c, hc, rfl⟩

theorem mergeCitations_usedMem (results : List ExecResult) (t fid : String) :
    (∃ m ∈ FrameworkConsolidator.mergeCitations results,
        m.title = t ∧ fid ∈ m.used_by_frameworks.getD []) ↔
      (t ≠ "" ∧ ∃ r ∈ results, r.framework_id = fid ∧ ∃ c ∈ r.citations, c.title = t) := by
  rw [mergeCitations_eq_processPairs]
  have h1 : (∃ m ∈ (processPairs (citationPairs results) ([], [])).1,
      m.title = t ∧ fid ∈ m.used_by_frameworks.getD []) ↔
      usedIn (processPairs (citationPairs results) ([], [])).1 t fid := Iff.rfl
  rw [h1, processPairs_usedIn (citationPairs results) ([], []) goodState_nil t fid]
  have h0 : ¬ usedIn ([] : List MergedCitation) t fid := by
    rintro ⟨m, hm, _⟩; exact absurd hm (List.not_mem_nil m)
  simp only [h0, false_or]
  constructor
  · rintro ⟨p, hp, hpf, hpt, hne⟩
    rcases (citationPairs_mem results p).mp hp with ⟨r, hr, c, hc, hpe⟩
    rw [hpe] at hpf hpt
    exact ⟨hne, r, hr, hpf, c, hc, hpt⟩
  · rintro ⟨hne, r, hr, hrf, c, hc, hct⟩
    refine ⟨(r.framework_id, c),
      (citationPairs_mem results (r.framework_id, c)).mpr ⟨r, hr, c, hc, rfl⟩,
      hrf, hct, hne⟩

/-- C5 amended: merging citations produces exactly one entry per distinct
NON-EMPTY title (citations whose title is the empty string are dropped); the
entry for title t carries fid in used_by_frameworks exactly when some result
with framework_id fid contributes a citation titled t (so as a set it is the
union over contributing results); and these title-sets and per-title
framework-id-sets are invariant under permutation of the input results — the
retained text/source excerpt, however, is that of the first contributing
result, and is order-dependent. -/
theorem citation_merge_characterization (results : List ExecResult) (t fid : String) :
    ((FrameworkConsolidator.mergeCitations results).map MergedCitation.title).Nodup ∧
    ((∃ m ∈ FrameworkConsolidator.mergeCitations results, m.title = t) ↔
      (t ≠ "" ∧ ∃ r ∈ results, ∃ c ∈ r.citations, c.title = t)) ∧
    ((∃ m ∈ FrameworkConsolidator.mergeCitations results,
        m.title = t ∧ fid ∈ m.used_by_frameworks.getD []) ↔
      (t ≠ "" ∧ ∃ r ∈ results, r.framework_id = fid ∧ ∃ c ∈ r.citations, c.title = t)) ∧
    (∀ results' : List ExecResult, results.Perm results' →
      ((∃ m ∈ FrameworkConsolidator.mergeCitations results,
          m.title = t ∧ fid ∈ m.used_by_frameworks.getD []) ↔
        (∃ m ∈ FrameworkConsolidator.mergeCitations results',
          m.title = t ∧ fid ∈ m.used_by_frameworks.getD []))) := by
  refine ⟨mergeCitations_nodupTitles results, mergeCitations_titleMem results t,
    mergeCitations_usedMem results t fid, ?_⟩
  intro results' hperm
  rw [mergeCitations_usedMem results t fid, mergeCitations_usedMem results' t fid]
  constructor
  · rintro ⟨hne, r, hr, hrest⟩
    exact ⟨hne, r, hperm.mem_iff.mp hr, hrest⟩
  · rintro ⟨hne, r, hr, hrest⟩
    exact ⟨hne, r, hperm.mem_iff.mpr hr, hrest⟩

def c5rE : ExecResult :=
  { framework_id := "A", framework_title := "A", framework_analysis := none,
    methodology_notes := "", confidence_level := 0.5, needs_more_info := [],
    citations := [{ title := "", text := "textE", source := "s" }], error := none }

def c5r1 : ExecResult :=
  { framework_id := "A", framework_title := "A", framework_analysis := none,
    methodology_notes := "", confidence_level := 0.5, needs_more_info := [],
    citations := [{ title := "T", text := "textA", source := "s" }], error := none }

def c5r2 : ExecResult :=
  { framework_id := "B", framework_title := "B", framework_analysis := none,
    methodology_notes := "", confidence_level := 0.5, needs_more_info := [],
    citations := [{ title := "T", text := "textB", source := "s" }], error := none }

/-- C5 counterexample: a result contributing a citation whose (distinct) title
is the empty string yields NO merged entry for that title, and permuting two
results that share the title "T" changes the merged content — the retained text
is "textA" in one order and "textB" in the other — so the merge is neither
one-entry-per-distinct-title nor order-independent as claimed. -/
theorem citation_merge_counterexample :
    FrameworkConsolidator.mergeCitations [c5rE] = [] ∧
    (FrameworkConsolidator.mergeCitations [c5r1, c5r2]).map MergedCitation.text
        = ["textA"] ∧
    (FrameworkConsolidator.mergeCitations [c5r2, c5r1]).map MergedCitation.text
        = ["textB"] ∧
    FrameworkConsolidator.mergeCitations [c5r1, c5r2] ≠
      FrameworkConsolidator.mergeCitations [c5r2, c5r1] ∧
    [c5r1, c5r2].Perm [c5r2, c5r1] := by
  refine ⟨by decide, by decide, by decide, by decide, List.Perm.swap _ _ _⟩

/-- C5 amended witness: the permutation-invariance component of the amended
theorem applied to the two concrete results sharing title "T", with the
concrete transposition discharging the permutation hypothesis. -/
theorem citation_merge_characterization_witness :
    (∃ m ∈ FrameworkConsolidator.mergeCitations [c5r1, c5r2],
        m.title = "T" ∧ "A" ∈ m.used_by_frameworks.getD []) ↔
      (∃ m ∈ FrameworkConsolidator.mergeCitations [c5r2, c5r1],
        m.title = "T" ∧ "A" ∈ m.used_by_frameworks.getD []) :=
  (citation_merge_characterization [c5r1, c5r2] "T" "A").2.2.2 [c5r2, c5r1]
    (List.Perm.swap _ _ _)

/-! Framework Consolidator (src/agents/framework_consolidator.py).
`consolidate` returns the canonical empty report for zero results, the
deterministic single-framework pass-through for exactly one result, and
otherwise the parsed LLM synthesis (with all_citations overwritten by the
merge) or, on any exception, the concatenation/truncation fallback. -/

structure TopInsight where
  insight : String
  source_frameworks : List String
  confidence : ℚ
  evidence : String
deriving DecidableEq

structure ConvergencePoint where
  point : String
  frameworks_aligned : List String
  implication : String
deriving DecidableEq

structure FrameworkView where
  name : String
  view : String
deriving DecidableEq

structure DivergencePoint where
  point : String
  framework_a : FrameworkView
  framework_b : FrameworkView
  resolution : String
deriving DecidableEq

structure OpportunityEntry where
  opportunity : String
  from_framework : String
  priority : String
deriving DecidableEq

structure RiskEntry where
  risk_or_gap : String
  from_framework : String
  mitigation : String
deriving DecidableEq

structure NextStep where
  action : String
  rationale : String
  framework_basis : String
deriving DecidableEq

structure FrameworkContribution where
  framework_id : String
  framework_title : String
  key_contribution : String
  best_insight : String
deriving DecidableEq

structure AnalysisQuality where
  frameworks_used : Nat
  total_insights : Nat
  convergence_strength : String
  gaps_remaining : List String
deriving DecidableEq

structure ConsolidatedReportBody where
  executive_summary : String
  top_insights : List TopInsight
  convergence_points : List ConvergencePoint
  divergence_points : List DivergencePoint
  opportunities : List OpportunityEntry
  risks_and_gaps : List RiskEntry
  unified_recommendation : String
  next_steps : List NextStep
deriving DecidableEq

structure ConsolidatedReport where
  consolidated_report : ConsolidatedReportBody
  framework_contributions : List FrameworkContribution
  all_citations : List MergedCitation
  overall_confidence : ℚ
  analysis_quality : AnalysisQuality
  error : Option String
deriving DecidableEq

def FrameworkConsolidator.emptyConsolidation : ConsolidatedReport :=
  { consolidated_report :=
      { executive_summary := "No frameworks were selected for analysis."
        top_insights := []
        convergence_points := []
        divergence_points := []
        opportunities := []
        risks_and_gaps := []
        unified_recommendation := "Select one or more frameworks to analyze your problem."
        next_steps := [] }
    framework_contributions := []
    all_citations := []
    overall_confidence := 0.0
    analysis_quality :=
      { frameworks_used := 0
        total_insights := 0
        convergence_strength := "low"
        gaps_remaining := ["No analysis performed"] }
    error := none }

def FrameworkConsolidator.singleFrameworkReport (result : ExecResult) : ConsolidatedReport :=
  { consolidated_report :=
      { executive_summary :=
          (result.framework_analysis.map FrameworkAnalysis.summary).getD
            "Single framework analysis completed."
        top_insights :=
          (((result.framework_analysis.map FrameworkAnalysis.insights).getD []).take 5).map
            (fun i =>
              { insight := i
                source_frameworks := [result.framework_id]
                confidence := result.confidence_level
                evidence := "From framework analysis" })
        convergence_points := []
        divergence_points := []
        opportunities :=
          ((result.framework_analysis.map FrameworkAnalysis.opportunities).getD []).map
            (fun o =>
              { opportunity := o
                from_framework := result.framework_title
                priority := "medium" })
        risks_and_gaps :=
          ((result.framework_analysis.map FrameworkAnalysis.risks_or_gaps).getD []).map
            (fun r =>
              { risk_or_gap := r
                from_framework := result.framework_title
                mitigation := "Further analysis needed" })
        unified_recommendation :=
          "Based on " ++ result.framework_title ++ " analysis: " ++
            (match (result.framework_analysis.map
                FrameworkAnalysis.recommended_next_steps).getD [] with
              | [] => "Continue analysis"
              | s :: _ => s)
        next_steps :=
          ((result.framework_analysis.map FrameworkAnalysis.recommended_next_steps).getD
            []).map (fun s =>
              { action := s
                rationale := "From framework analysis"
                framework_basis := result.framework_title }) }
    framework_contributions :=
      [ { framework_id := result.framework_id
          framework_title := result.framework_title
          key_contribution :=
            (result.framework_analysis.map FrameworkAnalysis.summary).getD
              "Framework analysis"
          best_insight :=
            match (result.framework_analysis.map FrameworkAnalysis.insights).getD [] with
            | [] => "N/A"
            | i :: _ => i } ]
    all_citations :=
      result.citations.map (fun c =>
        { title := c.title, text := c.text, source := c.source,
          used_by_frameworks := none })
    overall_confidence := result.confidence_level
    analysis_quality :=
      { frameworks_used := 1
        total_insights := ((result.framework_analysis.map FrameworkAnalysis.insights).getD
          []).length
        convergence_strength := "low"
        gaps_remaining := result.needs_more_info }
    error := none }

def FrameworkConsolidator.fallbackConsolidation (framework_results : List ExecResult)
    (error : String) : ConsolidatedReport :=
  let all_insights := framework_results.foldr
    (fun r acc => ((r.framework_analysis.map FrameworkAnalysis.insights).getD []) ++ acc) []
  let all_opportunities := framework_results.foldr
    (fun r acc => ((r.framework_analysis.map FrameworkAnalysis.opportunities).getD []) ++ acc) []
  let all_risks := framework_results.foldr
    (fun r acc => ((r.framework_analysis.map FrameworkAnalysis.risks_or_gaps).getD []) ++ acc) []
  { consolidated_report :=
      { executive_summary :=
          "Consolidated analysis from " ++ toString framework_results.length ++
            " frameworks. " ++ "Key themes: " ++
            (if all_insights.isEmpty then "Analysis in progress"
             else String.intercalate ", " (all_insights.take 3))
        top_insights :=
          (all_insights.take 5).map (fun i =>
            { insight := i
              source_frameworks := ["multiple"]
              confidence := 0.6
              evidence := "From framework analyses" })
        convergence_points := []
        divergence_points := []
        opportunities :=
          (all_opportunities.take 3).map (fun o =>
            { opportunity := o, from_framework := "Multiple", priority := "medium" })
        risks_and_gaps :=
          (all_risks.take 3).map (fun r =>
            { risk_or_gap := r, from_framework := "Multiple", mitigation := "TBD" })
        unified_recommendation :=
          "Review the individual framework analyses for detailed insights."
        next_steps :=
          [ { action := "Review framework outputs"
              rationale := "Consolidation incomplete"
              framework_basis := "All" } ] }
    framework_contributions :=
      framework_results.map (fun r =>
        { framework_id := r.framework_id
          framework_title := r.framework_title
          key_contribution :=
            (r.framework_analysis.map FrameworkAnalysis.summary).getD "Analysis provided"
          best_insight :=
            match (r.framework_analysis.map FrameworkAnalysis.insights).getD [] with
            | [] => "N/A"
            | i :: _ => i })
    all_citations := FrameworkConsolidator.mergeCitations framework_results
    overall_confidence := 0.5
    analysis_quality :=
      { frameworks_used := framework_results.length
        total_insights := all_insights.length
        convergence_strength := "unknown"
        gaps_remaining := ["Full consolidation incomplete"] }
    error := some error }

def FrameworkConsolidator.consolidate (framework_results : List ExecResult)
    (llm : Except String ConsolidatedReport) : ConsolidatedReport :=
  match framework_results with
  | [] => FrameworkConsolidator.emptyConsolidation
  | [result] => FrameworkConsolidator.singleFrameworkReport result
  | _ =>
      match llm with
      | .ok resp =>
          { resp with
              all_citations := FrameworkConsolidator.mergeCitations framework_results }
      | .error e => FrameworkConsolidator.fallbackConsolidation framework_results e

def c6analysis : FrameworkAnalysis :=
  { summary := "sum"
    key_questions_answered := []
    framework_output := []
    insights := ["i1", "i2", "i3", "i4", "i5", "i6"]
    opportunities := ["o1"]
    risks_or_gaps := ["g1"]
    recommended_next_steps := ["n1"] }

def c6r : ExecResult :=
  { framework_id := "fid"
    framework_title := "FW"
    framework_analysis := some c6analysis
    methodology_notes := ""
    confidence_level := 0.7
    needs_more_info := []
    citations := []
    error := none }

/-- C6 counterexample: a single-element result list whose analysis has 6
insights is NOT copied 1:1 — the pass-through report keeps only the first 5
insights. -/
theorem consolidate_single_counterexample :
    (FrameworkConsolidator.consolidate [c6r]
        (.error "ignored")).consolidated_report.top_insights.map TopInsight.insight =
      ["i1", "i2", "i3", "i4", "i5"] ∧
    c6analysis.insights = ["i1", "i2", "i3", "i4", "i5", "i6"] ∧
    (FrameworkConsolidator.consolidate [c6r]
        (.error "ignored")).consolidated_report.top_insights.length ≠
      c6analysis.insights.length := by
  refine ⟨by decide, by decide, by decide⟩

/-- C6 amended: consolidate applied to an empty list equals the canonical empty
report (frameworks_used = 0, unified_recommendation is the "select frameworks"
prompt string), regardless of the LLM outcome; applied to a single-element list
it is a deterministic pass-through in which the insights of the result are copied up
to the first FIVE (not 1:1 beyond five) into top_insights, opportunities and
risks are copied 1:1, convergence_points and divergence_points are empty, and
unified_recommendation is derived from the first recommended next step of the
framework. -/
theorem consolidate_boundary_cases (llm llm' : Except String ConsolidatedReport)
    (r : ExecResult) (a : FrameworkAnalysis) (ha : r.framework_analysis = some a) :
    FrameworkConsolidator.consolidate [] llm = FrameworkConsolidator.emptyConsolidation ∧
    FrameworkConsolidator.emptyConsolidation.analysis_quality.frameworks_used = 0 ∧
    FrameworkConsolidator.emptyConsolidation.consolidated_report.unified_recommendation =
      "Select one or more frameworks to analyze your problem." ∧
    FrameworkConsolidator.consolidate [r] llm = FrameworkConsolidator.consolidate [r] llm' ∧
    (FrameworkConsolidator.consolidate
        [r] llm).consolidated_report.top_insights.map TopInsight.insight =
      a.insights.take 5 ∧
    (FrameworkConsolidator.consolidate
        [r] llm).consolidated_report.opportunities.map OpportunityEntry.opportunity =
      a.opportunities ∧
    (FrameworkConsolidator.consolidate
        [r] llm).consolidated_report.risks_and_gaps.map RiskEntry.risk_or_gap =
      a.risks_or_gaps ∧
    (FrameworkConsolidator.consolidate [r] llm).consolidated_report.convergence_points
      = [] ∧
    (FrameworkConsolidator.consolidate [r] llm).consolidated_report.divergence_points
      = [] ∧
    (FrameworkConsolidator.consolidate [r] llm).consolidated_report.unified_recommendation =
      "Based on " ++ r.framework_title ++ " analysis: " ++
        (match a.recommended_next_steps with
          | [] => "Continue analysis"
          | s :: _ => s) := by
  refine ⟨rfl, rfl, rfl, rfl, ?_, ?_, ?_, rfl, rfl, ?_⟩
  · show (((FrameworkConsolidator.singleFrameworkReport
      r).consolidated_report.top_insights).map TopInsight.insight) = a.insights.take 5
    simp [FrameworkConsolidator.singleFrameworkReport, ha, List.map_map, Function.comp_def]
  · show (((FrameworkConsolidator.singleFrameworkReport
      r).consolidated_report.opportunities).map OpportunityEntry.opportunity) =
      a.opportunities
    simp [FrameworkConsolidator.singleFrameworkReport, ha, List.map_map, Function.comp_def]
  · show (((FrameworkConsolidator.singleFrameworkReport
      r).consolidated_report.risks_and_gaps).map RiskEntry.risk_or_gap) = a.risks_or_gaps
    simp [FrameworkConsolidator.singleFrameworkReport, ha, List.map_map, Function.comp_def]
  · show (FrameworkConsolidator.singleFrameworkReport
      r).consolidated_report.unified_recommendation = _
    simp [FrameworkConsolidator.singleFrameworkReport, ha]

/-- C6 amended witness: the pass-through component of the amended theorem at
the concrete single result with six insights. -/
theorem consolidate_boundary_cases_witness :
    (FrameworkConsolidator.consolidate
        [c6r] (.error "x")).consolidated_report.top_insights.map TopInsight.insight =
      c6analysis.insights.take 5 :=
  (consolidate_boundary_cases (.error "x") (.ok FrameworkConsolidator.emptyConsolidation)
    c6r c6analysis rfl).2.2.2.2.1

/-! Research Agent search execution (src/agents/research_agent.py,
`_execute_searches`).  The Tavily key is falsy (None or empty) ⇒ every query is
answered by an explicit per-query "not configured" marker; otherwise each query
hits the provider, whose outcome is modelled explicitly (HTTP 200 with parsed
answer/results, a non-200 status code, or a raised exception).  A configured
search that succeeds — even with zero results — carries no error marker, so the
unconfigured case is distinguishable from zero search results. -/

structure SearchHit where
  title : String
  url : String
  content : String
deriving DecidableEq

structure SearchQueryResult where
  query : String
  answer : Option String
  results : List SearchHit
  error : Option String
deriving DecidableEq

inductive TavilyOutcome where
  | ok (answer : String) (results : List SearchHit)
  | httpError (code : Nat)
  | exn (msg : String)

def ResearchAgent.runQuery (outcome : TavilyOutcome) (query : String) :
    SearchQueryResult :=
  match outcome with
  | .ok answer results =>
      { query := query, answer := some answer, results := results, error := none }
  | .httpError code =>
      { query := query, answer := none, results := [],
        error := some ("API error: " ++ toString code) }
  | .exn msg =>
      { query := query, answer := none, results := [], error := some msg }

def ResearchAgent.executeSearches (tavily_api_key : Option String)
    (queries : List String) (provider : String → TavilyOutcome) :
    List SearchQueryResult :=
  if tavily_api_key.getD "" = "" then
    queries.map (fun q =>
      { query := q, answer := none, results := [],
        error := some "Tavily API key not configured" })
  else
    queries.map (fun q => ResearchAgent.runQuery (provider q) q)

/-- C9: with the search provider unconfigured (no API key, or an empty one),
every generated query yields an explicit per-query "not configured" marker; a
configured provider returning zero results yields an entry with no error
marker, so the unconfigured case is distinguishable from zero search results. -/
theorem research_unconfigured_markers (queries : List String)
    (provider : String → TavilyOutcome) (a q0 : String) :
    ResearchAgent.executeSearches none queries provider =
      queries.map (fun q =>
        { query := q, answer := none, results := [],
          error := some "Tavily API key not configured" }) ∧
    ResearchAgent.executeSearches (some "") queries provider =
      queries.map (fun q =>
        { query := q, answer := none, results := [],
          error := some "Tavily API key not configured" }) ∧
    (ResearchAgent.executeSearches none queries provider).all
        (fun sr => sr.error == some "Tavily API key not configured") = true ∧
    (ResearchAgent.runQuery (.ok a []) q0).results = [] ∧
    (ResearchAgent.runQuery (.ok a []) q0).error = none ∧
    (some "Tavily API key not configured" : Option String) ≠ none := by
  refine ⟨rfl, rfl, ?_, rfl, rfl, by simp⟩
  unfold ResearchAgent.executeSearches
  simp
